import Mathlib

/-!
Verification of the device-session and state-decoding core of the
`deebot.js` vacuum client.

The source is a JavaScript library.  Its event-decoder handlers are embedded
here as pure Lean functions: a handler becomes a function from the relevant
slice of session state and a decoded payload to the new state slice (plus,
where relevant, the list of wire commands the handler issues).  JavaScript
numbers are modelled as rationals (`ℚ`), `parseInt` results as integers
(`ℤ`), absent payload fields as `Option`, and the few places where dynamic
typing itself matters (strict equality between fields of different runtime
types) use an explicit tagged value type `JSVal`.

External collaborators that are not part of the analysed source (the
error-code table, the wire-enum dictionaries, the geometry helpers of
`mapTools`, the time formatter of `tools`) are passed in as explicit function
parameters, or - where a claim depends on their documented contents - given
as definitions modelled from the specification and marked as such.
-/

namespace Deebot

/-- A primitive JavaScript value as it occurs in the payload fields modelled
here: numbers (as rationals; the payloads of interest carry no NaN), strings,
booleans, null and undefined. -/
inductive JSVal where
  | num (q : ℚ)
  | str (s : String)
  | bool (b : Bool)
  | null
  | undef
deriving DecidableEq, Repr

/-- JavaScript `Number()` coercion on the values modelled by `JSVal`.
`none` models NaN.  String parsing is not modelled: the numeric payload
fields handled through this coercion arrive JSON-decoded as numbers. -/
def toNumber : JSVal → Option ℚ
  | JSVal.num q => some q
  | JSVal.bool b => some (if b then 1 else 0)
  | JSVal.null => some 0
  | JSVal.str _ => none
  | JSVal.undef => none

/-! ## Life span (component remaining life) -/

/-- A `LifeSpan` event payload on the non-950 path with its numeric fields
already parsed (`parseInt`); a missing field is `none`.  The claims analysed
here concern payloads with valid numerics, so a present-but-unparseable
field (NaN) is not modelled. -/
structure LifeSpanEvent where
  type : Option String
  val : Option ℤ
  total : Option ℤ
  left : Option ℤ
deriving DecidableEq, Repr

/-- The four payload shapes tried in priority order by `_handle_life_span`
(`vacBot_non950type.js`, lines 127-136): `val/total*100`, `val/100`,
`left/total*100`, `left/60`. -/
def computeLifespanNon950 (e : LifeSpanEvent) : Option ℚ :=
  match e.val, e.total, e.left with
  | some v, some t, _ => some ((v : ℚ) / (t : ℚ) * 100)
  | some v, none, _ => some ((v : ℚ) / 100)
  | none, some t, some l => some ((l : ℚ) / (t : ℚ) * 100)
  | none, none, some l => some ((l : ℚ) / 60)
  | none, _, none => none

/-- `_handle_life_span` (`vacBot_non950type.js`, lines 116-142): resolve the
component type through the `COMPONENT_FROM_ECOVACS` dictionary (an external
lookup table, passed as `compDict`), compute the lifespan from the payload
shape, and store it only when the computed value is truthy (nonzero). -/
def handleLifeSpanNon950 (compDict : String → Option String)
    (components : String → Option ℚ) (e : LifeSpanEvent) : String → Option ℚ :=
  match e.type.bind compDict with
  | none => components
  | some ty =>
    match computeLifespanNon950 e with
    | none => components
    | some l =>
      if l ≠ 0 then (fun t => if t = ty then some l else components t)
      else components

/-- One array element of a 950-type `LifeSpan` payload (a truthy entry with
parsed numeric fields). -/
structure LifeSpanEntry950 where
  type : String
  left : ℤ
  total : ℤ
deriving DecidableEq, Repr

/-- `Number(x.toFixed(2))`: rounding to 2 decimal places.  JavaScript rounds
half away from zero; on the nonnegative inputs the claims are about this
agrees with `round` (half up). -/
def toFixed2 (q : ℚ) : ℚ := ((round (q * 100) : ℤ) : ℚ) / 100

/-- `handleLifespan` (950 type, `part_001` lines 220-239): for each entry,
resolve the component name through the dictionary (falling back to the raw
wire type on a miss) and store `left/total*100` rounded to 2 decimals. -/
def handleLifespan950 (compDict : String → Option String)
    (components : String → Option ℚ) (entries : List LifeSpanEntry950) :
    String → Option ℚ :=
  entries.foldl
    (fun comps entry =>
      let component := (compDict entry.type).getD entry.type
      let lifespan := (entry.left : ℚ) / (entry.total : ℚ) * 100
      fun t => if t = component then some (toFixed2 lifespan) else comps t)
    components

/-! ## Battery -/

/-- A 950-type `Battery` payload: the battery level and the optional `isLow`
field (numeric when present). -/
structure BatteryPayload where
  value : ℤ
  isLow : Option ℤ
deriving DecidableEq, Repr

/-- The battery slice of the session state. -/
structure BatteryState where
  batteryLevel : ℤ
  batteryIsLow : Bool
deriving DecidableEq, Repr

/-- `handleBattery` (950 type, `part_001` lines 204-213): store the level;
when `isLow` is present set `batteryIsLow` to the boolean coercion of its
numeric value, otherwise to the comparison `batteryLevel >= 15`. -/
def handleBattery (p : BatteryPayload) : BatteryState :=
  match p.isLow with
  | some v => { batteryLevel := p.value, batteryIsLow := decide (v ≠ 0) }
  | none => { batteryLevel := p.value, batteryIsLow := decide (p.value ≥ 15) }

/-! ## CleanInfo -/

/-- The `content` field of a 950-type `CleanInfo` payload's `cleanState`:
either a plain string (the area values directly) or an object carrying a
type, a value and an optional `donotClean` flag. -/
inductive CleanContent where
  | str (s : String)
  | obj (type : String) (value : String) (donotClean : Option ℤ)
deriving DecidableEq, Repr

/-- The `cleanState` sub-object of a `CleanInfo` payload. -/
structure CleanStateInfo where
  type : String
  content : CleanContent
  motionState : String
deriving DecidableEq, Repr

/-- A 950-type `CleanInfo` payload.  `cleanState` is read only on the
`state = "clean"` branch, where the device always supplies it. -/
structure CleanInfoPayload where
  state : String
  trigger : Option String
  cleanState : CleanStateInfo
deriving DecidableEq, Repr

/-- The slice of the 950-type session state touched by `handleCleanInfo`. -/
structure CleanInfoState where
  cleanReport : Option String
  chargeStatus : Option String
  currentSpotAreas : String
  currentCustomAreaValues : String
deriving DecidableEq, Repr

/-- The effective clean type of a `CleanInfo` payload on the `clean` branch:
the content object's type when the content is an object, else the
`cleanState` type (`part_001` lines 150-154). -/
def effectiveCleanType (cs : CleanStateInfo) : String :=
  match cs.content with
  | CleanContent.obj t _ _ => t
  | CleanContent.str _ => cs.type

/-- The area values of a `CleanInfo` payload on the `clean` branch: the
content object's value when the content is an object, else the content
string itself (`part_001` lines 161-166). -/
def cleanAreaValues (cs : CleanStateInfo) : String :=
  match cs.content with
  | CleanContent.obj _ v _ => v
  | CleanContent.str s => s

/-- `handleCleanInfo` (950 type, `part_001` lines 146-198): decode the clean
state, record spot-area and custom-area values, and on the non-clean branch
set the charge status on `returning` or issue a follow-up `GetChargeState`
on `idle`.  `dict` is the external `CLEAN_MODE_FROM_ECOVACS` dictionary.
The second component of the result is the list of command names the handler
issues through `this.run`. -/
def handleCleanInfo (dict : String → Option String) (st : CleanInfoState)
    (p : CleanInfoPayload) : CleanInfoState × List String :=
  let st0 := { st with currentSpotAreas := "", currentCustomAreaValues := "" }
  if p.state = "clean" then
    let cs := p.cleanState
    let ty := effectiveCleanType cs
    let report :=
      if cs.motionState = "working" then dict ty else dict cs.motionState
    if ty = "customArea" then
      let areaValues := cleanAreaValues cs
      let report2 :=
        match cs.content with
        | CleanContent.obj _ _ dnc =>
          if dnc = some 1 ∨ (areaValues.splitOn ",").length = 2
          then some "setLocation" else report
        | CleanContent.str _ => report
      ({ st0 with cleanReport := report2, currentCustomAreaValues := areaValues }, [])
    else if ty = "spotArea" then
      ({ st0 with cleanReport := report, currentSpotAreas := cleanAreaValues cs }, [])
    else
      ({ st0 with cleanReport := report }, [])
  else if p.trigger = some "alert" then
    ({ st0 with cleanReport := some "alert" }, [])
  else
    let report := dict p.state
    if report = some "returning" then
      ({ st0 with cleanReport := report, chargeStatus := some "returning" }, [])
    else if report = some "idle" then
      ({ st0 with cleanReport := report }, ["GetChargeState"])
    else
      ({ st0 with cleanReport := report }, [])

/-! ## Error handling -/

/-- A non-950 error event: any of the `errno`, `error` and `errs` fields may
be present. -/
structure ErrorEventNon950 where
  errno : Option String
  error : Option String
  errs : Option String
deriving DecidableEq, Repr

/-- `_handle_error` (`vacBot_non950type.js`, lines 239-259).  `table` is the
external error-code lookup table; `errorEvent` is the current value of
`this.error_event`; the result is its new value.  Follows the source's
control flow: a table hit on `errno` (with errno `100` returning early), then
truthiness-guarded fallbacks to the `error` and `errs` fields, and a final
truthiness guard before assigning `error_event`. -/
def handleErrorNon950 (table : String → Option String)
    (errorEvent : Option String) (e : ErrorEventNon950) : Option String :=
  let tableHit : Option String :=
    match e.errno with
    | some n =>
      match table n with
      | some d => if d ≠ "" then some d else none
      | none => none
    | none => none
  if e.errno = some "100" ∧ tableHit ≠ none then
    errorEvent
  else
    let c1 := tableHit
    let c2 := if c1.getD "" ≠ "" then c1 else e.error
    let c3 := if c2.getD "" ≠ "" then c2 else e.errs
    if c3.getD "" ≠ "" then c3 else errorEvent

/-- A 950-type error payload: the error code (already stringified, as by
`payload['code'].toString()`) and the `error` detail field appended for
code `1`. -/
structure ResponseErrorPayload where
  code : String
  error : String
deriving DecidableEq, Repr

/-- The error slice of the 950-type session state. -/
structure ErrorState950 where
  errorCode : String
  errorDescription : String
deriving DecidableEq, Repr

/-- `handleResponseError` (950 type, `part_001` lines 979-995): record the
code; on a table hit record the table's description (appending the payload's
`error` detail for code `1`), otherwise record the placeholder
`unknown errorCode: <code>`. -/
def handleResponseError (table : String → Option String)
    (p : ResponseErrorPayload) : ErrorState950 :=
  let unknownDesc := "unknown errorCode: " ++ p.code
  match table p.code with
  | some d =>
    if d ≠ "" then
      if p.code = "1" then
        { errorCode := p.code, errorDescription := d ++ ": " ++ p.error }
      else
        { errorCode := p.code, errorDescription := d }
    else
      { errorCode := p.code, errorDescription := unknownDesc }
  | none => { errorCode := p.code, errorDescription := unknownDesc }

/-- Modelled from the spec: the external error-code lookup table
(`errorCodes` is required from outside the analysed source).  Per the spec,
codes `0` and `100` both decode to the no-error description; only the
entries the claims depend on are included. -/
def errorCodesTable : String → Option String :=
  fun s =>
    if s = "0" then some "NoError: Robot is operational"
    else if s = "100" then some "NoError: Robot is operational"
    else none

/-! ## MapSet (spot areas and virtual boundaries) -/

/-- A `MapSet` payload: the map ID (`none` models a `mid` that fails the
`isNaN` numeric check), the optional set ID `msid`, the set type (`ar`,
`vw` or `mw`) and the `mssid` of each subset element. -/
structure MapSetPayload where
  mid : Option String
  msid : Option String
  type : String
  subsets : List String
deriving DecidableEq, Repr

/-- One virtual boundary as accumulated by `handleMapSet`: a subset ID
tagged with its boundary type (`vw` wall or `mw` mop restriction). -/
structure VirtualBoundary where
  mssid : String
  type : String
deriving DecidableEq, Repr

/-- The slice of the 950-type session state used by `handleMapSet`: the
current map ID, the per-map accumulated boundary lists and the per-map
2-slot received-flags structure (slot 0 for `vw`, slot 1 for `mw`). -/
structure MapSetState where
  currentMapMID : Option String
  mapVirtualBoundaries : String → Option (List VirtualBoundary)
  mapVirtualBoundariesResponses : String → Option (Bool × Bool)

/-- The result value of `handleMapSet`: a skip, an error, a spot-area set,
or a consolidated virtual-boundary set. -/
inductive MapSetResult where
  | skip
  | error
  | mapSpotAreas (mid : String) (msid : Option String) (areas : List String)
  | mapVirtualBoundaries (mid : String) (boundaries : List VirtualBoundary)
deriving DecidableEq, Repr

/-- The body of `handleMapSet` (950 type, `part_001` lines 793-837) after the
map ID has been resolved to `m`.  On a `vw`/`mw` payload the boundary list
and the received-flags pair for `m` are initialised together when the
boundary list is missing (mirroring the source's single
`typeof ... === 'undefined'` check), the subsets are appended, the flag slot
of the payload's type is set, and a consolidated result is returned exactly
when both flag slots are set, a skip result otherwise. -/
def handleMapSetWithMid (st : MapSetState) (p : MapSetPayload) (m : String) :
    MapSetState × MapSetResult :=
  if p.type = "ar" then
    (st, MapSetResult.mapSpotAreas m p.msid p.subsets)
  else if p.type = "vw" ∨ p.type = "mw" then
    let fresh := (st.mapVirtualBoundaries m).isNone
    let existing := (st.mapVirtualBoundaries m).getD []
    let flags :=
      if fresh then (false, false)
      else (st.mapVirtualBoundariesResponses m).getD (false, false)
    let boundaries :=
      existing ++ p.subsets.map (fun id => { mssid := id, type := p.type })
    let flags2 :=
      if p.type = "vw" then (true, flags.2) else (flags.1, true)
    let st2 : MapSetState :=
      { st with
        mapVirtualBoundaries :=
          fun k => if k = m then some boundaries else st.mapVirtualBoundaries k,
        mapVirtualBoundariesResponses :=
          fun k => if k = m then some flags2 else st.mapVirtualBoundariesResponses k }
    if flags2.1 ∧ flags2.2 then
      (st2, MapSetResult.mapVirtualBoundaries m boundaries)
    else
      (st2, MapSetResult.skip)
  else
    (st, MapSetResult.error)

/-- `handleMapSet` (950 type, `part_001` lines 783-837): resolve a
non-numeric `mid` to the current map ID, returning a skip result when
neither is available, then dispatch on the payload type. -/
def handleMapSet (st : MapSetState) (p : MapSetPayload) :
    MapSetState × MapSetResult :=
  match p.mid with
  | some m => handleMapSetWithMid st p m
  | none =>
    match st.currentMapMID with
    | some m => handleMapSetWithMid st p m
    | none => (st, MapSetResult.skip)

/-! ## Clean logs -/

/-- One raw entry of a `CleanLogs` payload with its numeric fields already
parsed (`parseInt` / `Number`). -/
structure CleanLogRaw where
  id : String
  area : ℤ
  ts : ℤ
  last : ℤ
  imageUrl : String
  type : String
  stopReason : String
deriving DecidableEq, Repr

/-- A stored clean-log entry (`part_001` lines 471-481). -/
structure CleanLogEntry where
  squareMeters : ℤ
  timestamp : ℤ
  lastTime : ℤ
  totalTime : ℤ
  totalTimeFormatted : String
  imageUrl : String
  type : String
  stopReason : String
deriving DecidableEq, Repr

/-- The clean-log slice of the 950-type session state: the log store keyed
by log ID plus the last-clean summary fields (a `none` summary field models
the `null` initial value). -/
structure CleanLogState where
  cleanLog : String → Option CleanLogEntry
  lastImageUrl : Option String
  lastTimestamp : Option ℤ
  lastSquareMeters : Option ℤ
  lastTotalTime : Option ℤ
  lastTotalTimeString : Option String

/-- The stored entry built from a raw payload entry (`part_001` lines
453-481); `fmt` is the external `tools.getTimeStringFormatted`. -/
def buildCleanLogEntry (fmt : ℤ → String) (e : CleanLogRaw) : CleanLogEntry :=
  { squareMeters := e.area
    timestamp := e.ts
    lastTime := e.last
    totalTime := e.last
    totalTimeFormatted := fmt e.last
    imageUrl := e.imageUrl
    type := e.type
    stopReason := e.stopReason }

/-- The summary-update condition of `part_001` line 459:
`(this.cleanLog_lastTimestamp < timestamp) || (!this.cleanLog_lastTimestamp)`.
A `null` last timestamp compares as `0` under `<` and is falsy, as is `0`. -/
def summaryOutdated (lastTimestamp : Option ℤ) (ts : ℤ) : Bool :=
  decide ((lastTimestamp.getD 0) < ts) ||
    decide (lastTimestamp = none ∨ lastTimestamp = some 0)

/-- Processing of one payload entry by `handleCleanLogs` (`part_001` lines
449-484): an entry whose ID is already in the (per-call) store is skipped;
otherwise the summary fields are updated when the entry's timestamp is newer
than the recorded one (or none is recorded) and the entry is stored. -/
def cleanLogStep (fmt : ℤ → String) (st : CleanLogState) (e : CleanLogRaw) :
    CleanLogState :=
  if (st.cleanLog e.id).isSome then st
  else
    let entry := buildCleanLogEntry fmt e
    let st1 :=
      if summaryOutdated st.lastTimestamp e.ts then
        { st with
          lastImageUrl := some e.imageUrl
          lastTimestamp := some e.ts
          lastSquareMeters := some e.area
          lastTotalTime := some e.last
          lastTotalTimeString := some (fmt e.last) }
      else st
    { st1 with cleanLog := fun i => if i = e.id then some entry else st1.cleanLog i }

/-- `handleCleanLogs` (950 type, `part_001` lines 438-486): the log store is
reset to empty (`this.cleanLog = []`) and then repopulated from the payload's
entry list; the last-clean summary fields persist across calls. -/
def handleCleanLogs (fmt : ℤ → String) (st : CleanLogState)
    (logs : List CleanLogRaw) : CleanLogState :=
  logs.foldl (cleanLogStep fmt) { st with cleanLog := fun _ => none }

/-! ## Position -/

/-- The `deebotPos` sub-object of a `Pos` payload.  Fields are kept as raw
JavaScript values because `handlePos` compares them with strict
(in)equality against the cached position. -/
structure DeebotPosPayload where
  x : JSVal
  y : JSVal
  a : JSVal
  invalid : JSVal
deriving DecidableEq, Repr

/-- The cached device position.  After any update `isInvalid` holds a
boolean (`Number(invalid) === 1`); it is kept as a raw value because the
change check compares the payload's numeric `invalid` field against it with
strict inequality. -/
structure DeebotPosition where
  x : JSVal
  y : JSVal
  a : JSVal
  isInvalid : JSVal
  currentSpotAreaID : String
  currentSpotAreaName : String
  changeFlag : Bool
  distanceToChargingStation : Option ℚ
deriving DecidableEq, Repr

/-- The cached charger position. -/
structure ChargePosition where
  x : JSVal
  y : JSVal
  a : JSVal
  changeFlag : Bool
deriving DecidableEq, Repr

/-- A `Pos` payload: the optional first charging-station position and the
optional device position. -/
structure PosPayload where
  chargePos : Option (JSVal × JSVal × JSVal)
  deebotPos : Option DeebotPosPayload
deriving DecidableEq, Repr

/-- The position slice of the 950-type session state. -/
structure PosState where
  chargePosition : ChargePosition
  deebotPosition : DeebotPosition
deriving DecidableEq, Repr

/-- The device-position change condition of `handlePos` (`part_001` lines
272-278): strict inequality on each of `x`, `y`, `a`, on the payload's
`invalid` field against the cached `isInvalid`, or an unknown cached
spot-area ID. -/
def posChanged (cached : DeebotPosition) (d : DeebotPosPayload) : Bool :=
  decide (d.x ≠ cached.x) || decide (d.y ≠ cached.y) ||
    decide (d.a ≠ cached.a) || decide (d.invalid ≠ cached.isInvalid) ||
    decide (cached.currentSpotAreaID = "unknown")

/-- `handlePos` (950 type, `part_001` lines 246-304).  The geometry helpers
that are external to the analysed source are passed in: `lookup` is
`mapTools.isPositionInSpotArea` applied to the coerced coordinates, `nameOf`
is `this.getSpotAreaName`, and `dist` is
`mapTools.getDistanceToChargingStation` applied to the device and cached
charger coordinates. -/
def handlePos (lookup : Option ℚ → Option ℚ → String) (nameOf : String → String)
    (dist : JSVal → JSVal → JSVal → JSVal → ℚ)
    (st : PosState) (p : PosPayload) : PosState :=
  let st1 :=
    match p.chargePos with
    | none => st
    | some (cx, cy, ca) =>
      if cx ≠ st.chargePosition.x ∨ cy ≠ st.chargePosition.y ∨
          ca ≠ st.chargePosition.a then
        { st with chargePosition := { x := cx, y := cy, a := ca, changeFlag := true } }
      else st
  match p.deebotPos with
  | none => st1
  | some d =>
    if posChanged st1.deebotPosition d then
      let areaID := lookup (toNumber d.x) (toNumber d.y)
      let isInv := toNumber d.invalid = some 1
      { st1 with
        deebotPosition :=
          { x := d.x
            y := d.y
            a := d.a
            isInvalid := JSVal.bool (decide isInv)
            currentSpotAreaID := areaID
            currentSpotAreaName := nameOf areaID
            changeFlag := true
            distanceToChargingStation :=
              some (dist d.x d.y st1.chargePosition.x st1.chargePosition.y) } }
    else st1

/-! ## Command dispatch (run) -/

/-- ASCII lowercasing of one character, as `toLowerCase` acts on the
command names dispatched by `run`. -/
def lowerChar (c : Char) : Char :=
  if c.isUpper then Char.ofNat (c.toNat + 32) else c

/-- `String.prototype.toLowerCase` restricted to the ASCII command names
used by the `run` dispatchers (defined by structural recursion so that
concrete dispatches evaluate). -/
def strToLower (s : String) : String := String.mk (s.data.map lowerChar)

/-- A wire request constructed by the non-950 `run` dispatcher; one
constructor per `vacBotCommand` constructor invocation shape. -/
inductive CommandNon950 where
  | clean0
  | clean1 (mode : String)
  | clean2 (mode action : String)
  | edge
  | spot
  | spotArea (action area : String)
  | customArea (action area cleanings : String)
  | stop
  | pause
  | resume
  | charge
  | playSound
  | getDeviceInfo
  | getCleanState
  | getCleanSpeed
  | getChargeState
  | getBatteryState
  | getLifeSpan (component : String)
  | getWaterLevel
  | setWaterLevel (level : String)
  | getWaterBoxInfo
deriving DecidableEq, Repr

/-- `run` (`vacBot_non950type.js`, lines 294-381), embedded as the list of
wire requests sent: the source's `run` mutates no session state and only
dispatches `send_command`.  `arguments.length` in the source counts the
action name plus the extra arguments, so `arguments.length < 3` is
`args.length < 2` here.  Unknown actions fall through the switch and send
nothing. -/
def runNon950 (action : String) (args : List String) : List CommandNon950 :=
  match strToLower action with
  | "clean" =>
    match args with
    | [] => [CommandNon950.clean0]
    | [a] => [CommandNon950.clean1 a]
    | a :: b :: _ => [CommandNon950.clean2 a b]
  | "edge" => [CommandNon950.edge]
  | "spot" => [CommandNon950.spot]
  | "spotarea" =>
    match args with
    | a :: b :: _ => [CommandNon950.spotArea a b]
    | _ => []
  | "customarea" =>
    match args with
    | a :: b :: c :: _ => [CommandNon950.customArea a b c]
    | _ => []
  | "stop" => [CommandNon950.stop]
  | "pause" => [CommandNon950.pause]
  | "resume" => [CommandNon950.resume]
  | "charge" => [CommandNon950.charge]
  | "playsound" => [CommandNon950.playSound]
  | "getdeviceinfo" => [CommandNon950.getDeviceInfo]
  | "deviceinfo" => [CommandNon950.getDeviceInfo]
  | "getcleanstate" => [CommandNon950.getCleanState]
  | "cleanstate" => [CommandNon950.getCleanState]
  | "getcleanspeed" => [CommandNon950.getCleanSpeed]
  | "cleanspeed" => [CommandNon950.getCleanSpeed]
  | "getchargestate" => [CommandNon950.getChargeState]
  | "chargestate" => [CommandNon950.getChargeState]
  | "getbatterystate" => [CommandNon950.getBatteryState]
  | "batterystate" => [CommandNon950.getBatteryState]
  | "getlifespan" =>
    match args with
    | c :: _ => [CommandNon950.getLifeSpan c]
    | [] => []
  | "lifespan" =>
    match args with
    | c :: _ => [CommandNon950.getLifeSpan c]
    | [] => []
  | "getwaterlevel" => [CommandNon950.getWaterLevel]
  | "setwaterlevel" =>
    match args with
    | l :: _ => [CommandNon950.setWaterLevel l]
    | [] => []
  | "getwaterboxinfo" => [CommandNon950.getWaterBoxInfo]
  | _ => []

/-- A wire request constructed by the 950-type `run` cases embedded here. -/
inductive Command950 where
  | getLifeSpan (components : List String)
  | getVolume
  | setVolume (volume : String)
deriving DecidableEq, Repr

/-- The slice of the 950-type session state mutated by the embedded `run`
cases (the `GetLifeSpan` compound case). -/
structure Run950State where
  emitFullLifeSpanEvent : Bool
  components : String → Option ℚ
  lastComponentValues : String → Option ℚ

/-- The 950-type `run` dispatcher (`part_001` lines 1253-1752), embedded for
its `GetLifeSpan`, `GetVolume` and `SetVolume` cases; each case of the
source's switch is independent of the others.  `compToEcovacs` is the
external `COMPONENT_TO_ECOVACS` dictionary and the three flags are the
device-capability queries.  Modelled from the spec: the base-class
`run` (`vacBot.js`, which is not under the analysed source) contributes no
wire request for these command names, per the catalog contract of spec
section 4.1. -/
def run950 (compToEcovacs : String → String)
    (hasMainBrush hasUnitCare hasRoundMop : Bool)
    (st : Run950State) (command : String) (args : List String) :
    Run950State × List Command950 :=
  match strToLower command with
  | "getlifespan" =>
    match args with
    | [] =>
      let arr0 := [compToEcovacs "filter", compToEcovacs "side_brush"]
      let arr1 := if hasMainBrush then arr0 ++ [compToEcovacs "main_brush"] else arr0
      let arr2 := if hasUnitCare then arr1 ++ [compToEcovacs "unit_care"] else arr1
      let arr3 := if hasRoundMop then arr2 ++ [compToEcovacs "round_mop"] else arr2
      ({ emitFullLifeSpanEvent := true
         components := fun _ => none
         lastComponentValues := fun _ => none },
       [Command950.getLifeSpan arr3])
    | c :: _ =>
      ({ st with emitFullLifeSpanEvent := false },
       [Command950.getLifeSpan [compToEcovacs c]])
  | "getvolume" => (st, [Command950.getVolume])
  | "setvolume" =>
    match args with
    | v :: _ => (st, [Command950.setVolume v])
    | [] => (st, [])
  | _ => (st, [])

/-! ## Concrete sample data -/

/-- The clean-log state of a fresh session (all summary fields `null`,
store empty). -/
def cleanLogInitState : CleanLogState :=
  { cleanLog := fun _ => none
    lastImageUrl := none
    lastTimestamp := none
    lastSquareMeters := none
    lastTotalTime := none
    lastTotalTimeString := none }

/-- A sample clean-log payload entry with log ID `5`. -/
def sampleLogA : CleanLogRaw :=
  { id := "5", area := 10, ts := 100, last := 5,
    imageUrl := "imgA", type := "auto", stopReason := "cleared" }

/-- A second sample clean-log payload entry with the same log ID `5` but
different field values. -/
def sampleLogB : CleanLogRaw :=
  { id := "5", area := 99, ts := 50, last := 7,
    imageUrl := "imgB", type := "auto", stopReason := "cleared" }

/-- A cached position state whose device position was recorded from an
earlier valid payload: coordinates `(1, 2, 3)`, a boolean `isInvalid` of
`false` (as written by `Number(invalid) === 1`), a known spot area, and a
`changeFlag` already consumed (reset) by the listener side. -/
def samplePosState : PosState :=
  { chargePosition :=
      { x := JSVal.num 0, y := JSVal.num 0, a := JSVal.num 0, changeFlag := false }
    deebotPosition :=
      { x := JSVal.num 1, y := JSVal.num 2, a := JSVal.num 3,
        isInvalid := JSVal.bool false, currentSpotAreaID := "2",
        currentSpotAreaName := "2", changeFlag := false,
        distanceToChargingStation := some 0 } }

/-- A `Pos` payload that repeats the cached device position of
`samplePosState` field for field (the numeric `invalid` flag `0` is the
coercion source of the cached boolean `false`). -/
def samplePosPayload : PosPayload :=
  { chargePos := none,
    deebotPos := some
      { x := JSVal.num 1, y := JSVal.num 2, a := JSVal.num 3,
        invalid := JSVal.num 0 } }

/-! ## Theorems -/

/-- Pointwise effect of one `handleCleanLogs` entry step on the log store:
a no-op when the entry's ID is already stored, an insertion at the entry's
ID otherwise (the summary update leaves the store untouched). -/
theorem cleanLogStep_lookup (fmt : ℤ → String) (st : CleanLogState)
    (e : CleanLogRaw) (id : String) :
    (cleanLogStep fmt st e).cleanLog id =
      if (st.cleanLog e.id).isSome then st.cleanLog id
      else if id = e.id then some (buildCleanLogEntry fmt e)
      else st.cleanLog id := by
  unfold cleanLogStep
  by_cases h1 : (st.cleanLog e.id).isSome
  · simp [h1]
  · by_cases h2 : summaryOutdated st.lastTimestamp e.ts <;>
      by_cases h3 : id = e.id <;> simp [h1, h2, h3]

/-- The log store after folding a list of payload entries: an ID already
stored keeps its entry, a fresh ID gets the first payload entry carrying
it. -/
theorem cleanLog_foldl_lookup (fmt : ℤ → String) (logs : List CleanLogRaw)
    (st : CleanLogState) (id : String) :
    (logs.foldl (cleanLogStep fmt) st).cleanLog id =
      if (st.cleanLog id).isSome then st.cleanLog id
      else (logs.find? (fun e => e.id == id)).map (buildCleanLogEntry fmt) := by
  induction logs generalizing st with
  | nil => cases h : st.cleanLog id <;> simp [h]
  | cons e rest ih =>
    simp only [List.foldl_cons]
    rw [ih]
    rw [cleanLogStep_lookup]
    by_cases hA : (st.cleanLog e.id).isSome
    · simp only [hA, if_true]
      by_cases hB : (st.cleanLog id).isSome
      · simp [hB]
      · have hne : (e.id == id) = false := by
          by_contra hcontra
          have heq : e.id = id := by
            have := eq_true_of_ne_false hcontra
            exact beq_iff_eq.mp (by simpa using this)
          rw [heq] at hA
          exact hB hA
        simp [hB, List.find?_cons, hne]
    · simp only [hA, if_false]
      by_cases hC : id = e.id
      · have hbeq : (e.id == id) = true := by
          rw [hC]
          exact beq_self_eq_true _
        have hnone : st.cleanLog id = none := by
          rw [hC]
          exact Option.not_isSome_iff_eq_none.mp hA
        simp [hC, hnone, hA, List.find?_cons, hbeq]
      · have hbeq : (e.id == id) = false := by
          rw [beq_eq_false_iff_ne]
          exact fun hcontra => hC hcontra.symm
        by_cases hB : (st.cleanLog id).isSome
        · simp [hC, hB]
        · simp [hC, hB, List.find?_cons, hbeq]

/-- Claim C10: in the 950-type battery handler, for every `Battery` payload
that lacks an `isLow` field, `batteryIsLow` is set to the value of the
comparison `batteryLevel >= 15`, i.e. it is true exactly when the battery
level is at least 15; when `isLow` is present, `batteryIsLow` is the boolean
coercion of its numeric value. -/
theorem battery_is_low_semantics (p : BatteryPayload) :
    (p.isLow = none →
      ((handleBattery p).batteryIsLow = true ↔ 15 ≤ p.value)) ∧
    (∀ v : ℤ, p.isLow = some v →
      ((handleBattery p).batteryIsLow = true ↔ v ≠ 0)) := by
  constructor
  · intro h
    simp [handleBattery, h, ge_iff_le]
  · intro v h
    simp [handleBattery, h]

/-- Witness for `battery_is_low_semantics` at concrete payloads. -/
theorem battery_is_low_semantics_witness :
    (handleBattery { value := 20, isLow := none }).batteryIsLow = true ∧
    (handleBattery { value := 20, isLow := some 3 }).batteryIsLow = true := by
  constructor
  · exact ((battery_is_low_semantics { value := 20, isLow := none }).1 rfl).mpr
      (by decide)
  · exact ((battery_is_low_semantics { value := 20, isLow := some 3 }).2 3 rfl).mpr
      (by decide)

/-- Claim C9: in the non-950 life-span handler, a payload whose computed
lifespan value is exactly 0 does not update the components store: the
truthiness guard on the computed value drops a fully-worn component's 0%
reading, leaving the previous value (or absence) in place. -/
theorem lifespan_zero_not_stored (compDict : String → Option String)
    (components : String → Option ℚ) (e : LifeSpanEvent)
    (h : computeLifespanNon950 e = some 0) :
    handleLifeSpanNon950 compDict components e = components := by
  unfold handleLifeSpanNon950
  cases hd : e.type.bind compDict with
  | none => rfl
  | some ty => rw [h]; simp

/-- Witness for `lifespan_zero_not_stored`: a known component with `val = 0`
and `total = 100` (a 0% reading) leaves the store untouched. -/
theorem lifespan_zero_not_stored_witness :
    handleLifeSpanNon950 (fun s => if s = "ts" then some "filter" else none)
      (fun t => if t = "filter" then some 55 else none)
      { type := some "ts", val := some 0, total := some 100, left := none } =
      (fun t => if t = "filter" then some 55 else none) :=
  lifespan_zero_not_stored _ _ _ (by norm_num [computeLifespanNon950])

/-- Claim C7: a `run` invocation whose command requires arguments that are
missing (`SpotArea` with fewer than two arguments, `CustomArea` with fewer
than three, `GetLifeSpan` without a component on the non-950 path,
`SetVolume` with no argument on the 950-type path) sends no wire request,
raises no error (the dispatchers are total functions) and leaves session
state unchanged (the non-950 `run` mutates no state at all, and the
950-type `SetVolume` case returns the state it was given). -/
theorem run_missing_args_dropped :
    (∀ args : List String, args.length < 2 → runNon950 "SpotArea" args = []) ∧
    (∀ args : List String, args.length < 3 → runNon950 "CustomArea" args = []) ∧
    runNon950 "GetLifeSpan" [] = [] ∧
    (∀ (compToEcovacs : String → String) (b1 b2 b3 : Bool) (st : Run950State),
      run950 compToEcovacs b1 b2 b3 st "SetVolume" [] = (st, [])) := by
  refine ⟨?_, ?_, rfl, ?_⟩
  · intro args h
    match args with
    | [] => rfl
    | [a] => rfl
    | a :: b :: rest => simp at h; omega
  · intro args h
    match args with
    | [] => rfl
    | [a] => rfl
    | [a, b] => rfl
    | a :: b :: c :: rest => simp at h; omega
  · intro compToEcovacs b1 b2 b3 st
    rfl

/-- Witness for `run_missing_args_dropped` at concrete argument lists. -/
theorem run_missing_args_dropped_witness :
    runNon950 "SpotArea" ["5"] = [] ∧
    runNon950 "CustomArea" ["start", "1,2"] = [] := by
  exact ⟨run_missing_args_dropped.1 ["5"] (by decide),
    run_missing_args_dropped.2.1 ["start", "1,2"] (by decide)⟩

/-- Claim C8: every invocation of `handleCleanInfo` begins by resetting
`currentSpotAreas` and `currentCustomAreaValues` to the empty string, so any
payload that is not an active spot-area or custom-area clean (including
charge, idle and alert states) clears the previously recorded area
values. -/
theorem clean_info_resets_area_values (dict : String → Option String)
    (st : CleanInfoState) (p : CleanInfoPayload)
    (h : p.state = "clean" →
      effectiveCleanType p.cleanState ≠ "spotArea" ∧
      effectiveCleanType p.cleanState ≠ "customArea") :
    (handleCleanInfo dict st p).1.currentSpotAreas = "" ∧
    (handleCleanInfo dict st p).1.currentCustomAreaValues = "" := by
  unfold handleCleanInfo
  by_cases hc : p.state = "clean"
  · obtain ⟨h1, h2⟩ := h hc
    simp [hc, h1, h2]
  · simp only [hc, if_false]
    by_cases ht : p.trigger = some "alert"
    · simp [ht]
    · simp only [ht, if_false]
      split_ifs <;> simp

/-- Witness for `clean_info_resets_area_values`: a charge-state payload
clears previously recorded area values. -/
theorem clean_info_resets_area_values_witness :
    (handleCleanInfo (fun _ => none)
      { cleanReport := none, chargeStatus := none,
        currentSpotAreas := "1,2", currentCustomAreaValues := "0,0,100,100" }
      { state := "goCharging", trigger := none,
        cleanState :=
          { type := "auto", content := CleanContent.str "", motionState := "" } }).1.currentSpotAreas = "" := by
  exact (clean_info_resets_area_values (fun _ => none) _ _
    (fun hc => by simp at hc)).1

/-- Claim C6: when `handleCleanInfo` processes a payload whose state maps to
`returning`, it also sets the charge status to `returning`; when the
payload's state maps to `idle`, it issues exactly one follow-up
`GetChargeState` command (the compensating re-query), and it issues no such
command for any other state.  The `returning`/`idle` dispatch lives on the
branch for payloads whose state is not `clean` and whose trigger is not
`alert` (the real clean-mode dictionary maps neither of those). -/
theorem clean_info_charge_side_channel (dict : String → Option String)
    (st : CleanInfoState) (p : CleanInfoPayload) :
    ((handleCleanInfo dict st p).2 =
      if p.state ≠ "clean" ∧ p.trigger ≠ some "alert" ∧ dict p.state = some "idle"
      then ["GetChargeState"] else []) ∧
    (p.state ≠ "clean" → p.trigger ≠ some "alert" →
      dict p.state = some "returning" →
      (handleCleanInfo dict st p).1.chargeStatus = some "returning") := by
  constructor
  · by_cases hc : p.state = "clean"
    · simp only [handleCleanInfo, hc, if_true, ne_eq, not_true_eq_false,
        false_and, if_false]
      split_ifs <;> rfl
    · by_cases ht : p.trigger = some "alert"
      · simp [handleCleanInfo, hc, ht]
      · by_cases hr : dict p.state = some "returning"
        · have : dict p.state ≠ some "idle" := by rw [hr]; simp
          simp [handleCleanInfo, hc, ht, hr, this]
        · by_cases hi : dict p.state = some "idle"
          · simp [handleCleanInfo, hc, ht, hr, hi]
          · simp [handleCleanInfo, hc, ht, hr, hi]
  · intro hc ht hr
    simp [handleCleanInfo, hc, ht, hr]

/-- Witness for `clean_info_charge_side_channel`: a dictionary carrying the
real `goCharging`/`idle` clean-mode entries, a `goCharging` payload setting
the charge status, and an `idle` payload issuing the re-query. -/
theorem clean_info_charge_side_channel_witness :
    (handleCleanInfo
      (fun s => if s = "goCharging" then some "returning"
                else if s = "idle" then some "idle" else none)
      { cleanReport := none, chargeStatus := none,
        currentSpotAreas := "", currentCustomAreaValues := "" }
      { state := "goCharging", trigger := none,
        cleanState :=
          { type := "auto", content := CleanContent.str "", motionState := "" } }).1.chargeStatus =
      some "returning" ∧
    (handleCleanInfo
      (fun s => if s = "goCharging" then some "returning"
                else if s = "idle" then some "idle" else none)
      { cleanReport := none, chargeStatus := none,
        currentSpotAreas := "", currentCustomAreaValues := "" }
      { state := "idle", trigger := none,
        cleanState :=
          { type := "auto", content := CleanContent.str "", motionState := "" } }).2 =
      ["GetChargeState"] := by
  constructor
  · exact (clean_info_charge_side_channel _ _ _).2 (by simp) (by simp) (by simp)
  · have h := (clean_info_charge_side_channel
      (fun s => if s = "goCharging" then some "returning"
                else if s = "idle" then some "idle" else none)
      { cleanReport := none, chargeStatus := none,
        currentSpotAreas := "", currentCustomAreaValues := "" }
      { state := "idle", trigger := none,
        cleanState :=
          { type := "auto", content := CleanContent.str "", motionState := "" } }).1
    simpa using h

/-- Claim C4, counterexample.  The claim states that device error codes `0`
and `100` never surface as an error state change on either path, and that a
code absent from the lookup table surfaces with a non-empty placeholder
description on both paths.  Against the spec-modelled table (which carries
the documented no-error entries for `0` and `100`): the non-950 handler maps
`errno = "0"` to an `error_event` assignment (only `100` is special-cased),
the non-950 handler produces no placeholder for an unknown `errno` (state is
left unchanged), and the 950-type handler records even code `0` into its
error state. -/
theorem error_code_surfacing_counterexample :
    handleErrorNon950 errorCodesTable none
      { errno := some "0", error := none, errs := none } =
      some "NoError: Robot is operational" ∧
    handleErrorNon950 errorCodesTable none
      { errno := some "999", error := none, errs := none } = none ∧
    handleResponseError errorCodesTable { code := "0", error := "" } =
      { errorCode := "0", errorDescription := "NoError: Robot is operational" } := by
  refine ⟨?_, ?_, ?_⟩ <;> rfl

/-- Claim C4 (amended): on the non-950 path only code `100` is suppressed
(the handler returns with `error_event` unchanged, given the table's `100`
entry), while code `0` assigns the table's no-error description to
`error_event`; an `errno` absent from the table yields no placeholder on the
non-950 path (with no `error`/`errs` fallback fields the state is
unchanged).  On the 950-type path a code absent from the table surfaces with
the non-empty placeholder description `unknown errorCode: <code>`. -/
theorem error_handling_amended :
    (∀ (table : String → Option String) (st : Option String)
       (e : ErrorEventNon950) (d : String),
      e.errno = some "100" → table "100" = some d → d ≠ "" →
      handleErrorNon950 table st e = st) ∧
    (∀ (table : String → Option String) (st : Option String)
       (e : ErrorEventNon950) (d : String),
      e.errno = some "0" → table "0" = some d → d ≠ "" →
      handleErrorNon950 table st e = some d) ∧
    (∀ (table : String → Option String) (st : Option String)
       (e : ErrorEventNon950) (n : String),
      e.errno = some n → table n = none → e.error = none → e.errs = none →
      handleErrorNon950 table st e = st) ∧
    (∀ (table : String → Option String) (p : ResponseErrorPayload),
      table p.code = none →
      (handleResponseError table p).errorDescription =
        "unknown errorCode: " ++ p.code ∧
      (handleResponseError table p).errorDescription ≠ "") := by
  refine ⟨?_, ?_, ?_, ?_⟩
  · intro table st e d hn htab hd
    simp [handleErrorNon950, hn, htab, hd]
  · intro table st e d hn htab hd
    simp [handleErrorNon950, hn, htab, hd]
  · intro table st e n hn htab he hs
    simp [handleErrorNon950, hn, htab, he, hs]
  · intro table p htab
    refine ⟨by simp [handleResponseError, htab], ?_⟩
    simp only [handleResponseError, htab]
    intro hcontra
    have hlen : ("unknown errorCode: " ++ p.code).length = 0 := by
      rw [hcontra]; rfl
    rw [String.length_append] at hlen
    have hpref : "unknown errorCode: ".length = 19 := rfl
    omega

/-- Witness for `error_handling_amended`: code `100` suppressed on the
non-950 path against the spec-modelled table, and the 950-type placeholder
for an unknown code. -/
theorem error_handling_amended_witness :
    handleErrorNon950 errorCodesTable (some "previous")
      { errno := some "100", error := none, errs := none } = some "previous" ∧
    (handleResponseError errorCodesTable { code := "999", error := "" }).errorDescription =
      "unknown errorCode: " ++ "999" := by
  constructor
  · exact error_handling_amended.1 errorCodesTable (some "previous")
      { errno := some "100", error := none, errs := none }
      "NoError: Robot is operational" rfl rfl (by decide)
  · exact (error_handling_amended.2.2.2 errorCodesTable
      { code := "999", error := "" } rfl).1

/-- Claim C3: `handleMapSet` never yields a consolidated
`MapVirtualBoundaries` result while only one of the two boundary payload
types (`vw` and `mw`) has been received for a map ID — such a payload is
buffered and the handler returns a skip result — and once both types have
been received for that map ID, processing the second payload yields exactly
one consolidated result containing the boundaries from both payloads.  The
first conjunct covers any payload for a map ID whose other type slot is
still unset (including a fresh map ID); the second runs the two-payload
scenario from a fresh map ID: the first payload skips, the second
consolidates. -/
theorem virtual_boundary_join :
    (∀ (st : MapSetState) (p : MapSetPayload) (m : String),
      p.mid = some m →
      (p.type = "vw" ∧
        (st.mapVirtualBoundaries m = none ∨
          ((st.mapVirtualBoundariesResponses m).getD (false, false)).2 = false)) ∨
      (p.type = "mw" ∧
        (st.mapVirtualBoundaries m = none ∨
          ((st.mapVirtualBoundariesResponses m).getD (false, false)).1 = false)) →
      (handleMapSet st p).2 = MapSetResult.skip) ∧
    (∀ (st : MapSetState) (p1 p2 : MapSetPayload) (m : String),
      p1.mid = some m → p2.mid = some m →
      p1.type = "vw" → p2.type = "mw" →
      st.mapVirtualBoundaries m = none →
      (handleMapSet st p1).2 = MapSetResult.skip ∧
      (handleMapSet (handleMapSet st p1).1 p2).2 =
        MapSetResult.mapVirtualBoundaries m
          ((p1.subsets.map fun id => { mssid := id, type := "vw" }) ++
            (p2.subsets.map fun id => { mssid := id, type := "mw" }))) := by
  constructor
  · intro st p m hmid hcase
    rcases hcase with ⟨hty, hslot⟩ | ⟨hty, hslot⟩ <;>
      rcases hslot with hfresh | hflag
    · simp [handleMapSet, hmid, handleMapSetWithMid, hty, hfresh]
    · by_cases hb : st.mapVirtualBoundaries m = none
      · simp [handleMapSet, hmid, handleMapSetWithMid, hty, hb]
      · simp [handleMapSet, hmid, handleMapSetWithMid, hty, hb, hflag]
    · simp [handleMapSet, hmid, handleMapSetWithMid, hty, hfresh]
    · by_cases hb : st.mapVirtualBoundaries m = none
      · simp [handleMapSet, hmid, handleMapSetWithMid, hty, hb]
      · simp [handleMapSet, hmid, handleMapSetWithMid, hty, hb, hflag]
  · intro st p1 p2 m hm1 hm2 ht1 ht2 hfresh
    constructor
    · simp [handleMapSet, hm1, handleMapSetWithMid, ht1, hfresh]
    · simp [handleMapSet, hm1, hm2, handleMapSetWithMid, ht1, ht2, hfresh]

/-- Witness for `virtual_boundary_join`: a fresh map ID `"1"`, a wall
payload followed by a mop payload; the first skips, the second yields the
consolidated boundary set. -/
theorem virtual_boundary_join_witness :
    (handleMapSet
      { currentMapMID := none, mapVirtualBoundaries := fun _ => none,
        mapVirtualBoundariesResponses := fun _ => none }
      { mid := some "1", msid := none, type := "vw", subsets := ["2"] }).2 =
      MapSetResult.skip ∧
    (handleMapSet
      (handleMapSet
        { currentMapMID := none, mapVirtualBoundaries := fun _ => none,
          mapVirtualBoundariesResponses := fun _ => none }
        { mid := some "1", msid := none, type := "vw", subsets := ["2"] }).1
      { mid := some "1", msid := none, type := "mw", subsets := ["3"] }).2 =
      MapSetResult.mapVirtualBoundaries "1"
        ((["2"].map fun id => { mssid := id, type := "vw" }) ++
          (["3"].map fun id => { mssid := id, type := "mw" })) :=
  virtual_boundary_join.2
    { currentMapMID := none, mapVirtualBoundaries := fun _ => none,
      mapVirtualBoundariesResponses := fun _ => none }
    { mid := some "1", msid := none, type := "vw", subsets := ["2"] }
    { mid := some "1", msid := none, type := "mw", subsets := ["3"] }
    "1" rfl rfl rfl rfl rfl

/-- Claim C5, counterexample.  The claim states that a log entry whose ID is
already present in the log store does not alter the stored entry for that ID
(first-write-wins).  Because `handleCleanLogs` resets the store at the start
of every invocation, an entry whose ID was stored by a previous invocation
is rebuilt from the new payload: after ingesting `sampleLogA` (ID `5`), a
second invocation carrying `sampleLogB` (same ID `5`, different fields)
replaces the stored entry. -/
theorem clean_log_overwrite_counterexample :
    (handleCleanLogs (fun _ => "t") cleanLogInitState [sampleLogA]).cleanLog "5" =
      some (buildCleanLogEntry (fun _ => "t") sampleLogA) ∧
    (handleCleanLogs (fun _ => "t")
        (handleCleanLogs (fun _ => "t") cleanLogInitState [sampleLogA])
        [sampleLogB]).cleanLog "5" =
      some (buildCleanLogEntry (fun _ => "t") sampleLogB) ∧
    buildCleanLogEntry (fun _ => "t") sampleLogB ≠
      buildCleanLogEntry (fun _ => "t") sampleLogA := by
  refine ⟨?_, ?_, ?_⟩ <;> decide

/-- Claim C5 (amended): within a single `handleCleanLogs` invocation the
store - which is cleared at the start of the call - maps each log ID to the
entry built from the first payload entry carrying that ID, so a duplicate-ID
entry later in the same payload does not alter the stored entry; and an
inserted entry whose timestamp is newer than the recorded last timestamp
updates all last-clean summary fields (image URL, timestamp, square meters,
total time, formatted time) to match that entry. -/
theorem clean_log_first_write_within_call :
    (∀ (fmt : ℤ → String) (st : CleanLogState) (logs : List CleanLogRaw)
       (id : String),
      (handleCleanLogs fmt st logs).cleanLog id =
        (logs.find? (fun e => e.id == id)).map (buildCleanLogEntry fmt)) ∧
    (∀ (fmt : ℤ → String) (st : CleanLogState) (e : CleanLogRaw),
      st.lastTimestamp.getD 0 < e.ts →
      (handleCleanLogs fmt st [e]).lastImageUrl = some e.imageUrl ∧
      (handleCleanLogs fmt st [e]).lastTimestamp = some e.ts ∧
      (handleCleanLogs fmt st [e]).lastSquareMeters = some e.area ∧
      (handleCleanLogs fmt st [e]).lastTotalTime = some e.last ∧
      (handleCleanLogs fmt st [e]).lastTotalTimeString = some (fmt e.last)) := by
  constructor
  · intro fmt st logs id
    unfold handleCleanLogs
    rw [cleanLog_foldl_lookup]
    simp
  · intro fmt st e h
    have hout : summaryOutdated st.lastTimestamp e.ts = true := by
      simp [summaryOutdated, h]
    simp [handleCleanLogs, cleanLogStep, hout]

/-- Witness for `clean_log_first_write_within_call`: a two-entry payload
with a duplicated ID keeps the first entry, and ingesting `sampleLogA` into
a fresh session sets the last-clean timestamp. -/
theorem clean_log_first_write_within_call_witness :
    (handleCleanLogs (fun _ => "t") cleanLogInitState
        [sampleLogA, sampleLogB]).cleanLog "5" =
      (([sampleLogA, sampleLogB].find? (fun e => e.id == "5")).map
        (buildCleanLogEntry (fun _ => "t"))) ∧
    (handleCleanLogs (fun _ => "t") cleanLogInitState
        [sampleLogA]).lastTimestamp = some sampleLogA.ts :=
  ⟨clean_log_first_write_within_call.1 (fun _ => "t") cleanLogInitState
      [sampleLogA, sampleLogB] "5",
    (clean_log_first_write_within_call.2 (fun _ => "t") cleanLogInitState
      sampleLogA (by decide)).2.1⟩

/-- Claim C2.  The no-op suppression asserted by the claim never fires for a
device-position payload: the cached `isInvalid` holds a boolean (written by
`Number(invalid) === 1`) while the payload's `invalid` field is a number, so
the strict comparison `deebotPos['invalid'] !== this.deebotPosition.isInvalid`
in the change condition is always true.  The second conjunct evaluates the
handler at the failing input: a payload identical to the cached position
(with `invalid = 0` coercing to the cached `false`) still rewrites the
position with `changeFlag` set. -/
theorem pos_identical_payload_still_rewrites :
    (∀ (cached : DeebotPosition) (d : DeebotPosPayload) (b : Bool) (q : ℚ),
      cached.isInvalid = JSVal.bool b → d.invalid = JSVal.num q →
      posChanged cached d = true) ∧
    ((handlePos (fun _ _ => "2") (fun s => s) (fun _ _ _ _ => 0)
        samplePosState samplePosPayload).deebotPosition.changeFlag = true ∧
      samplePosState.deebotPosition.changeFlag = false ∧
      toNumber (JSVal.num 0) = some 0) := by
  constructor
  · intro cached d b q hb hq
    simp [posChanged, hq, hb]
  · refine ⟨?_, rfl, rfl⟩
    have hch : posChanged samplePosState.deebotPosition
        { x := JSVal.num 1, y := JSVal.num 2, a := JSVal.num 3,
          invalid := JSVal.num 0 } = true := by
      simp [posChanged, samplePosState]
    simp [handlePos, samplePosPayload, hch]

/-- Witness for `pos_identical_payload_still_rewrites`: the general conjunct
applied at the sample cached position and repeated payload. -/
theorem pos_identical_payload_still_rewrites_witness :
    posChanged samplePosState.deebotPosition
      { x := JSVal.num 1, y := JSVal.num 2, a := JSVal.num 3,
        invalid := JSVal.num 0 } = true :=
  pos_identical_payload_still_rewrites.1 samplePosState.deebotPosition
    { x := JSVal.num 1, y := JSVal.num 2, a := JSVal.num 3,
      invalid := JSVal.num 0 } false 0 rfl rfl

/-- The rounding to 2 decimal places maps `[0, 100]` into itself. -/
theorem toFixed2_bounds (q : ℚ) (h0 : 0 ≤ q) (h1 : q ≤ 100) :
    0 ≤ toFixed2 q ∧ toFixed2 q ≤ 100 := by
  unfold toFixed2
  constructor
  · apply div_nonneg _ (by norm_num : (0:ℚ) ≤ 100)
    have hfl : (0:ℤ) ≤ round (q * 100) := by
      rw [round_eq]
      apply Int.floor_nonneg.mpr
      nlinarith
    exact_mod_cast hfl
  · rw [div_le_iff₀ (by norm_num : (0:ℚ) < 100)]
    have hfl : round (q * 100) ≤ 10000 := by
      rw [round_eq]
      have hle : ((⌊q * 100 + 1/2⌋ : ℤ) : ℚ) ≤ q * 100 + 1/2 := Int.floor_le _
      by_contra hlt
      push_neg at hlt
      have h2 : (10001 : ℚ) ≤ ((⌊q * 100 + 1/2⌋ : ℤ) : ℚ) := by exact_mod_cast hlt
      nlinarith
    calc ((round (q * 100) : ℤ) : ℚ) ≤ ((10000 : ℤ) : ℚ) := by exact_mod_cast hfl
      _ = 100 * 100 := by norm_num

/-- A ratio of integers `0 ≤ v ≤ t`, `0 < t`, scaled by 100, lies in
`[0, 100]`. -/
theorem ratio_percent_bounds (v t : ℤ) (h0 : 0 ≤ v) (hvt : v ≤ t) (ht : 0 < t) :
    0 ≤ (v : ℚ) / t * 100 ∧ (v : ℚ) / t * 100 ≤ 100 := by
  have htq : (0:ℚ) < (t:ℚ) := by exact_mod_cast ht
  have hv : (0:ℚ) ≤ (v:ℚ) := by exact_mod_cast h0
  constructor
  · positivity
  · have hr : (v:ℚ) / t ≤ 1 := by
      rw [div_le_one htq]
      exact_mod_cast hvt
    nlinarith

/-- Claim C1, counterexample.  The claim asserts that the computed component
percentage lies in `[0, 100]` for every payload with valid numeric fields;
but the formulas are not clamped: the payload `val = 2`, `total = 1` (valid
numerics) yields 200. -/
theorem lifespan_percentage_counterexample :
    computeLifespanNon950
      { type := some "ts", val := some 2, total := some 1, left := none } =
      some 200 ∧
    ¬ ((200 : ℚ) ≤ 100) := by
  constructor
  · norm_num [computeLifespanNon950]
  · norm_num

/-- Claim C1 (amended): for every life-span payload whose numeric fields are
valid and within the device ranges presupposed by each shape (numerator
between 0 and the shape's full-scale denominator), the computed percentage
lies in `[0, 100]` and equals the documented formula for that shape:
`val/total*100`, `val/100`, `left/total*100`, `left/60` on the non-950 path,
and `left/total*100` rounded to 2 decimal places on the 950-type path. -/
theorem lifespan_formula_and_bounds :
    (∀ (e : LifeSpanEvent) (v t : ℤ), e.val = some v → e.total = some t →
      0 ≤ v → v ≤ t → 0 < t →
      computeLifespanNon950 e = some ((v : ℚ) / t * 100) ∧
      0 ≤ (v : ℚ) / t * 100 ∧ (v : ℚ) / t * 100 ≤ 100) ∧
    (∀ (e : LifeSpanEvent) (v : ℤ), e.val = some v → e.total = none →
      0 ≤ v → v ≤ 10000 →
      computeLifespanNon950 e = some ((v : ℚ) / 100) ∧
      0 ≤ (v : ℚ) / 100 ∧ (v : ℚ) / 100 ≤ 100) ∧
    (∀ (e : LifeSpanEvent) (l t : ℤ), e.val = none → e.total = some t →
      e.left = some l → 0 ≤ l → l ≤ t → 0 < t →
      computeLifespanNon950 e = some ((l : ℚ) / t * 100) ∧
      0 ≤ (l : ℚ) / t * 100 ∧ (l : ℚ) / t * 100 ≤ 100) ∧
    (∀ (e : LifeSpanEvent) (l : ℤ), e.val = none → e.total = none →
      e.left = some l → 0 ≤ l → l ≤ 6000 →
      computeLifespanNon950 e = some ((l : ℚ) / 60) ∧
      0 ≤ (l : ℚ) / 60 ∧ (l : ℚ) / 60 ≤ 100) ∧
    (∀ (compDict : String → Option String) (comps : String → Option ℚ)
       (entry : LifeSpanEntry950),
      0 ≤ entry.left → entry.left ≤ entry.total → 0 < entry.total →
      handleLifespan950 compDict comps [entry]
          ((compDict entry.type).getD entry.type) =
        some (toFixed2 ((entry.left : ℚ) / entry.total * 100)) ∧
      0 ≤ toFixed2 ((entry.left : ℚ) / entry.total * 100) ∧
      toFixed2 ((entry.left : ℚ) / entry.total * 100) ≤ 100) := by
  refine ⟨?_, ?_, ?_, ?_, ?_⟩
  · intro e v t hval htot h0 hvt ht
    refine ⟨by simp [computeLifespanNon950, hval, htot], ?_⟩
    exact ratio_percent_bounds v t h0 hvt ht
  · intro e v hval htot h0 hv
    refine ⟨?_, ?_, ?_⟩
    · cases hl : e.left <;> simp [computeLifespanNon950, hval, htot, hl]
    · positivity
    · rw [div_le_iff₀ (by norm_num : (0:ℚ) < 100)]
      have : ((v:ℚ)) ≤ ((10000 : ℤ) : ℚ) := by exact_mod_cast hv
      calc ((v:ℚ)) ≤ ((10000 : ℤ) : ℚ) := this
        _ = 100 * 100 := by norm_num
  · intro e l t hval htot hleft h0 hlt ht
    refine ⟨by simp [computeLifespanNon950, hval, htot, hleft], ?_⟩
    exact ratio_percent_bounds l t h0 hlt ht
  · intro e l hval htot hleft h0 hl
    refine ⟨by simp [computeLifespanNon950, hval, htot, hleft], ?_, ?_⟩
    · positivity
    · rw [div_le_iff₀ (by norm_num : (0:ℚ) < 60)]
      have : ((l:ℚ)) ≤ ((6000 : ℤ) : ℚ) := by exact_mod_cast hl
      calc ((l:ℚ)) ≤ ((6000 : ℤ) : ℚ) := this
        _ = 100 * 60 := by norm_num
  · intro compDict comps entry h0 hlt ht
    refine ⟨by simp [handleLifespan950], ?_⟩
    obtain ⟨hb0, hb1⟩ := ratio_percent_bounds entry.left entry.total h0 hlt ht
    exact toFixed2_bounds _ hb0 hb1

/-- Witness for `lifespan_formula_and_bounds`: the `val/total` shape at
`50/100` and the 950-type path at `left = 50`, `total = 100`. -/
theorem lifespan_formula_and_bounds_witness :
    (computeLifespanNon950
        { type := some "b", val := some 50, total := some 100, left := none } =
      some ((50 : ℚ) / 100 * 100) ∧
      0 ≤ (50 : ℚ) / 100 * 100 ∧ (50 : ℚ) / 100 * 100 ≤ 100) ∧
    (handleLifespan950 (fun _ => some "filter") (fun _ => none)
        [{ type := "b", left := 50, total := 100 }]
        ((some "filter").getD "b") =
      some (toFixed2 ((50 : ℚ) / 100 * 100)) ∧
      0 ≤ toFixed2 ((50 : ℚ) / 100 * 100) ∧
      toFixed2 ((50 : ℚ) / 100 * 100) ≤ 100) :=
  ⟨lifespan_formula_and_bounds.1
      { type := some "b", val := some 50, total := some 100, left := none }
      50 100 rfl rfl (by decide) (by decide) (by decide),
    lifespan_formula_and_bounds.2.2.2.2 (fun _ => some "filter") (fun _ => none)
      { type := "b", left := 50, total := 100 }
      (by decide) (by decide) (by decide)⟩

end Deebot
